import Mathlib

/-!
Verification of the routing and presence subsystem of a multi-tenant
call-routing gateway (a Node/Express server, `src/server.js`).

The server keeps two insertion-ordered mutable maps, `activeConnections`
(agent sessions keyed by identity) and `callStates` (call records keyed by
call SID), plus a static `companies` configuration object.  JavaScript
`Map`s iterate in insertion order, and `Map.set` on an existing key updates
the value in place (keeping the key position); we model both maps as
association lists with exactly that semantics.
-/

namespace DialerServer

/-- Lookup in an association list keyed by strings; models `Map.get` /
JavaScript object property access. -/
def mapGet {β : Type} : List (String × β) → String → Option β
  | [], _ => none
  | p :: rest, k => if p.1 == k then some p.2 else mapGet rest k

/-- Models JavaScript `Map.set m k v` (and `obj[k] = v`): if the key is
present its value is updated in place, keeping its position in iteration
order; otherwise the pair is appended at the end. -/
def mapSet {β : Type} : List (String × β) → String → β → List (String × β)
  | [], k, v => [(k, v)]
  | p :: rest, k, v => if p.1 == k then (k, v) :: rest else p :: mapSet rest k v

/-- Helper for `jsReplaceFirst`: if `pat` is a leading segment of the list,
return the remainder after it. -/
def dropMatch : List Char → List Char → Option (List Char)
  | [], rest => some rest
  | _ :: _, [] => none
  | p :: ps, c :: cs => if p = c then dropMatch ps cs else none

/-- Helper for `jsReplaceFirst`, working on character lists. -/
def replaceFirstAux (pat rep : List Char) : List Char → List Char
  | [] => []
  | c :: cs =>
    match dropMatch pat (c :: cs) with
    | some rest => rep ++ rest
    | none => c :: replaceFirstAux pat rep cs

/-- Models JavaScript `s.replace(pat, rep)` with a string pattern: only the
FIRST occurrence of `pat` is replaced (the server uses
`identity.replace(pat, rep)` with `pat = "ext_"` and `rep = ""`). -/
def jsReplaceFirst (s pat rep : String) : String :=
  ⟨replaceFirstAux pat.data rep.data s.data⟩

/-- Per-extension entry of the static `companies` configuration:
`{ name, available }` in `src/server.js`. -/
structure ExtensionInfo where
  name : String
  available : Bool
  deriving DecidableEq, Repr

/-- Per-company entry of the static `companies` configuration. Extension
keys are the string forms of the numeric keys, in the ascending order in
which JavaScript enumerates integer-like object keys. -/
structure CompanyConfig where
  name : String
  phoneNumber : String
  extensions : List (String × ExtensionInfo)
  deriving DecidableEq, Repr

/-- The `connectiv` entry of `companies` in `src/server.js`. -/
def connectivConfig : CompanyConfig :=
  { name := "Connectiv"
    phoneNumber := "+18562307373"
    extensions :=
      [ ("101", { name := "Reception", available := true })
      , ("102", { name := "Sales", available := true })
      , ("103", { name := "Support", available := true })
      , ("104", { name := "Manager", available := true }) ] }

/-- The `booksnpayroll` entry of `companies` in `src/server.js`. -/
def booksnpayrollConfig : CompanyConfig :=
  { name := "Books and Payroll"
    phoneNumber := "+18564053544"
    extensions :=
      [ ("201", { name := "Accounting", available := true })
      , ("202", { name := "Payroll", available := true })
      , ("203", { name := "Bookkeeping", available := true })
      , ("204", { name := "Manager", available := true }) ] }

/-- The whole `companies` configuration object. -/
def companies0 : List (String × CompanyConfig) :=
  [("connectiv", connectivConfig), ("booksnpayroll", booksnpayrollConfig)]

/-- An entry of `activeConnections`: the object stored by the
`/api/token` handler (`{ company, extension, connectedAt, available }`).
Timestamps are milliseconds since epoch, as `Date` arithmetic yields. -/
structure Connection where
  company : String
  extension : String
  connectedAt : Nat
  available : Bool
  deriving DecidableEq, Repr

/-- Error outcomes of the `/api/token` handler before a session is stored:
missing parameters (400) or an unknown company (400, "Invalid company"). -/
inductive TokenError where
  | missingParams
  | invalidCompany
  deriving DecidableEq, Repr

/-- The registration part of the `/api/token` handler (`src/server.js`
lines 63-109): rejects a falsy identity or company and an unknown company,
then stores `{ company, extension, connectedAt: now, available: true }`
under `identity`, where the extension is the identity with a leading
`ext_` removed.  Note that the extension derived from the identity is NOT
checked against the extension table of the company. -/
def registerSession (cfg : List (String × CompanyConfig))
    (reg : List (String × Connection)) (identity company : String)
    (now : Nat) : Except TokenError (List (String × Connection)) :=
  if identity == "" || company == "" then .error .missingParams
  else
    match mapGet cfg company with
    | none => .error .invalidCompany
    | some _ =>
      .ok (mapSet reg identity
        { company := company
          extension := jsReplaceFirst identity "ext_" ""
          connectedAt := now
          available := true })

/-- The first-pass predicate of `findAvailableAgent`: same company, exactly
the preferred extension, and the session availability flag set. -/
def pass1 (company preferredExtension : String)
    (p : String × Connection) : Bool :=
  p.2.company == company && p.2.extension == preferredExtension
    && p.2.available

/-- The second-pass predicate of `findAvailableAgent`: same company and the
session availability flag set. -/
def pass2 (company : String) (p : String × Connection) : Bool :=
  p.2.company == company && p.2.available

/-- `findAvailableAgent(company, preferredExtension)` of `src/server.js`
lines 489-507: first `for` loop scans `activeConnections` for a session
matching company, preferred extension and availability; the second loop
scans for any available session of the company; otherwise `null`. -/
def findAvailableAgent (registry : List (String × Connection))
    (company preferredExtension : String) : Option String :=
  match registry.find? (pass1 company preferredExtension) with
  | some p => some p.1
  | none =>
    match registry.find? (pass2 company) with
    | some p => some p.1
    | none => none

/-- Written from the wording of the specification (claim C1): pass 1
returns a session of the tenant with exactly the preferred extension and
availability true if one exists; pass 2 returns the first session, in
insertion order of the registry, of the tenant with availability true;
otherwise none. -/
def findAvailableSpec (registry : List (String × Connection))
    (company preferredExtension : String) : Option String :=
  match (registry.filter (pass1 company preferredExtension)).head? with
  | some p => some p.1
  | none => ((registry.filter (pass2 company)).head?).map (fun p => p.1)

/-- `getCallerIdForIdentity` of `src/server.js` lines 509-515.  The
JavaScript reads `companies[connection.company].phoneNumber`, which would
throw if the stored company were not a configuration key; we model that
unreachable crash as `none`. -/
def getCallerIdForIdentity (cfg : List (String × CompanyConfig))
    (registry : List (String × Connection)) (identity : String) :
    Option String :=
  match mapGet registry identity with
  | some conn => (mapGet cfg conn.company).map (fun c => c.phoneNumber)
  | none => some "+18562307373"

/-- Error outcome of the `/api/extensions/:company/:extension/status`
handler: 404 "Extension not found" when the company or the extension is
unknown. -/
inductive AvailabilityError where
  | notFound
  deriving DecidableEq, Repr

/-- The `/api/extensions/:company/:extension/status` handler
(`src/server.js` lines 462-476): 404 unless both company and extension
exist, otherwise it writes
`companies[company].extensions[extension].available = available` — i.e. it
mutates the availability flag of the static configuration, not of any
`activeConnections` session. -/
def setAvailability (cfg : List (String × CompanyConfig))
    (company extension : String) (avail : Bool) :
    Except AvailabilityError (List (String × CompanyConfig)) :=
  match mapGet cfg company with
  | none => .error .notFound
  | some c =>
    match mapGet c.extensions extension with
    | none => .error .notFound
    | some e =>
      .ok (mapSet cfg company
        { c with extensions :=
            mapSet c.extensions extension { e with available := avail } })

/-- The session TTL of the cleanup sweep: 4 hours in milliseconds. -/
def sessionTTL : Nat := 4 * 60 * 60 * 1000

/-- One tick of the `setInterval` cleanup sweep (`src/server.js` lines
518-527): every connection with `now - connectedAt > sessionTTL` is
deleted from `activeConnections`; all others are kept.  `Date`
subtraction is modelled by truncated `Nat` subtraction, which agrees with
the JavaScript comparison (a non-positive difference is never `> TTL`). -/
def reapTick (registry : List (String × Connection)) (now : Nat) :
    List (String × Connection) :=
  registry.filter (fun p => !(decide (now - p.2.connectedAt > sessionTTL)))

/-- An entry of `callStates`.  The incoming-call handlers store
`{ from, company, startTime, status }`; the `/api/call-status` handler
later assigns `status`, `duration` and `endTime`.  `Duration` arrives as a
request-body string and may be absent, hence `Option String`. -/
structure CallRecord where
  fromNumber : String
  company : String
  startTime : Nat
  status : String
  duration : Option String
  endTime : Option Nat
  deriving DecidableEq, Repr

/-- The call-state mutation of the incoming-call handlers
(`src/server.js` lines 155-164 and 292-300):
`callStates.set(CallSid, { from, company, startTime: new Date(),
status: "incoming" })`, executed unconditionally — an existing record
under the same CallSid is overwritten. -/
def beginCall (callStates : List (String × CallRecord))
    (callSid fromNumber company : String) (now : Nat) :
    List (String × CallRecord) :=
  mapSet callStates callSid
    { fromNumber := fromNumber
      company := company
      startTime := now
      status := "incoming"
      duration := none
      endTime := none }

/-- The `/api/call-status` handler (`src/server.js` lines 413-428): if the
CallSid is unknown nothing happens; otherwise the `status`, `duration`
and `endTime` fields of the record are assigned unconditionally — there
is no check of the current status of the record. -/
def applyStatusCall (callStates : List (String × CallRecord))
    (callSid status : String) (duration : Option String) (now : Nat) :
    List (String × CallRecord) :=
  match mapGet callStates callSid with
  | none => callStates
  | some r =>
    mapSet callStates callSid
      { r with status := status, duration := duration, endTime := some now }

/-- The set of terminal call statuses named by the specification: `completed`,
`failed`, `busy`, `no-answer`. -/
def isTerminal (status : String) : Bool :=
  status == "completed" || status == "failed" || status == "busy"
    || status == "no-answer"

/-- The digit switch of the `/api/incoming/connectiv/menu` handler
(`src/server.js` lines 199-222): returns (extension, extension name);
every non-matching input, including the empty string, falls to the
`default` branch. -/
def connectivRoute (digits : String) : String × String :=
  if digits == "1" then ("101", "Reception")
  else if digits == "2" then ("102", "Sales")
  else if digits == "3" then ("103", "Support")
  else if digits == "4" then ("104", "Manager")
  else ("101", "Reception")

/-- The digit switch of the `/api/incoming/booksnpayroll/menu` handler
(`src/server.js` lines 333-356). -/
def booksnpayrollRoute (digits : String) : String × String :=
  if digits == "1" then ("201", "Accounting")
  else if digits == "2" then ("202", "Payroll")
  else if digits == "3" then ("203", "Bookkeeping")
  else if digits == "4" then ("204", "Manager")
  else ("201", "Accounting")

/-- The call-control instructions the menu handler can emit: a spoken
prompt, a `dial`/`client` to an agent identity (with ring timeout in
seconds and optional status-callback action), or a voicemail `record`
instruction (action URL, maximum length in seconds, optional finish
key). -/
inductive TwiML where
  | say (text : String)
  | dialClient (timeout : Nat) (action : Option String) (identity : String)
  | record (action : String) (maxLength : Nat) (finishOnKey : Option String)
  deriving DecidableEq, Repr

/-- The TwiML response of the `/api/incoming/connectiv/menu` handler
(`src/server.js` lines 194-261): maps the digit, announces the
destination, and either dials the agent found by `findAvailableAgent`
(ring timeout 30 s, action `/api/call-status`) or speaks an apology and
records a message (max 60 s, finish key `#`, action `/api/voicemail`). -/
def connectivMenu (registry : List (String × Connection))
    (digits : String) : List TwiML :=
  let e := connectivRoute digits
  let announce := TwiML.say
    ("Connecting you to " ++ e.2 ++ ". Please hold.")
  match findAvailableAgent registry "connectiv" e.1 with
  | some agent =>
    [announce, TwiML.dialClient 30 (some "/api/call-status") agent]
  | none =>
    [announce,
     TwiML.say ("Sorry, " ++ e.2 ++
       " is not available right now. Please leave a message after the beep."),
     TwiML.record "/api/voicemail" 60 (some "#")]

/-- The mutable state of the server: the static-but-mutable `companies`
configuration, `activeConnections`, and `callStates`. -/
structure ServerState where
  companiesCfg : List (String × CompanyConfig)
  activeConnections : List (String × Connection)
  callStates : List (String × CallRecord)
  deriving DecidableEq, Repr

/-- The state-mutating operations of the HTTP handlers and the
cleanup sweep. -/
inductive Op where
  | register (identity company : String) (now : Nat)
  | setAvail (company extension : String) (avail : Bool)
  | reap (now : Nat)
  | callBegin (callSid fromNumber company : String) (now : Nat)
  | callStatus (callSid status : String) (duration : Option String) (now : Nat)
  deriving DecidableEq, Repr

/-- The state at process start: the literal `companies` object and two
empty maps. -/
def initState : ServerState :=
  { companiesCfg := companies0, activeConnections := [], callStates := [] }

/-- One state transition.  A handler that answers with an error leaves the
state unchanged (the JavaScript `return res.status(...)` happens before
any mutation). -/
def step (s : ServerState) : Op → ServerState
  | .register identity company now =>
    match registerSession s.companiesCfg s.activeConnections identity company now with
    | .ok reg => { s with activeConnections := reg }
    | .error _ => s
  | .setAvail company extension avail =>
    match setAvailability s.companiesCfg company extension avail with
    | .ok cfg => { s with companiesCfg := cfg }
    | .error _ => s
  | .reap now => { s with activeConnections := reapTick s.activeConnections now }
  | .callBegin callSid fromNumber company now =>
    { s with callStates := beginCall s.callStates callSid fromNumber company now }
  | .callStatus callSid status duration now =>
    { s with callStates := applyStatusCall s.callStates callSid status duration now }

/-- The state after a sequence of operations from process start. -/
def runOps (ops : List Op) : ServerState :=
  ops.foldl step initState

/-- Invariant justifying totality of caller-id resolution: every session
of `activeConnections` names a company that is a key of the configuration
(the `/api/token` handler only stores validated companies, and no handler
invalidates a stored one). -/
def companiesValid (s : ServerState) : Prop :=
  ∀ p ∈ s.activeConnections, (mapGet s.companiesCfg p.2.company).isSome = true

/-! Helper lemmas about the association-list operations. -/

theorem find?_eq_filterHead {α : Type} (p : α → Bool) (l : List α) :
    l.find? p = (l.filter p).head? := by
  induction l with
  | nil => rfl
  | cons a t ih =>
    cases hpa : p a with
    | true =>
      rw [List.find?_cons_of_pos _ hpa, List.filter_cons_of_pos]
      rfl
      exact hpa
    | false =>
      rw [List.find?_cons_of_neg _ (by simp [hpa]), List.filter_cons_of_neg, ih]
      simp [hpa]

theorem mapGet_mapSet_self {β : Type} (m : List (String × β)) (k : String)
    (v : β) : mapGet (mapSet m k v) k = some v := by
  induction m with
  | nil => simp [mapSet, mapGet]
  | cons q rest ih =>
    by_cases h : q.1 = k
    · simp [mapSet, mapGet, h]
    · simp [mapSet, mapGet, h, ih]

theorem mapGet_mapSet_ne {β : Type} (m : List (String × β)) (k k' : String)
    (v : β) (h : k' ≠ k) : mapGet (mapSet m k v) k' = mapGet m k' := by
  induction m with
  | nil => simp [mapSet, mapGet, Ne.symm h]
  | cons q rest ih =>
    by_cases hq : q.1 = k
    · subst hq
      simp [mapSet, mapGet, Ne.symm h]
    · by_cases hq' : q.1 = k'
      · simp [mapSet, mapGet, hq, hq', h]
      · simp [mapSet, mapGet, hq, hq', ih]

theorem mem_mapSet {β : Type} {m : List (String × β)} {k : String} {v : β}
    {p : String × β} (h : p ∈ mapSet m k v) : p ∈ m ∨ p = (k, v) := by
  induction m with
  | nil => simp [mapSet] at h; right; exact h
  | cons q rest ih =>
    by_cases hq : q.1 = k
    · rw [mapSet] at h
      rw [if_pos (by simpa using hq)] at h
      rcases List.mem_cons.mp h with h1 | h2
      · right; exact h1
      · left; exact List.mem_cons_of_mem q h2
    · rw [mapSet] at h
      rw [if_neg (by simpa using hq)] at h
      rcases List.mem_cons.mp h with h1 | h2
      · left; exact h1 ▸ List.mem_cons_self q rest
      · rcases ih h2 with h3 | h4
        · left; exact List.mem_cons_of_mem q h3
        · right; exact h4

theorem mapGet_mem {β : Type} {m : List (String × β)} {k : String} {v : β}
    (h : mapGet m k = some v) : (k, v) ∈ m := by
  induction m with
  | nil => simp [mapGet] at h
  | cons q rest ih =>
    rw [mapGet] at h
    by_cases hq : q.1 = k
    · rw [if_pos (by simpa using hq)] at h
      cases h
      subst hq
      exact List.mem_cons_self q rest
    · rw [if_neg (by simpa using hq)] at h
      exact List.mem_cons_of_mem q (ih h)

theorem mapGet_mapSet_isSome {β : Type} (m : List (String × β))
    (k k' : String) (v : β) (h : (mapGet m k').isSome = true) :
    (mapGet (mapSet m k v) k').isSome = true := by
  by_cases hk : k' = k
  · subst hk; simp [mapGet_mapSet_self]
  · rwa [mapGet_mapSet_ne m k k' v hk]

theorem step_companiesValid {s : ServerState} (h : companiesValid s)
    (op : Op) : companiesValid (step s op) := by
  cases op with
  | register identity company now =>
    rw [step]
    cases hr : registerSession s.companiesCfg s.activeConnections identity company now with
    | error e => exact h
    | ok reg =>
      intro p hp
      unfold registerSession at hr
      by_cases h0 : (identity == "" || company == "") = true
      · rw [if_pos h0] at hr; cases hr
      · rw [if_neg h0] at hr
        cases hc : mapGet s.companiesCfg company with
        | none => rw [hc] at hr; cases hr
        | some c =>
          rw [hc] at hr
          cases hr
          rcases mem_mapSet hp with hmem | hpe
          · exact h p hmem
          · subst hpe; simp [hc]
  | setAvail company extension avail =>
    rw [step]
    cases hr : setAvailability s.companiesCfg company extension avail with
    | error e => exact h
    | ok cfg =>
      intro p hp
      unfold setAvailability at hr
      split at hr
      · cases hr
      · split at hr
        · cases hr
        · cases hr
          exact mapGet_mapSet_isSome _ _ _ _ (h p hp)
  | reap now =>
    intro p hp
    exact h p (List.mem_filter.mp hp).1
  | callBegin callSid fromNumber company now => exact h
  | callStatus callSid status duration now => exact h

theorem foldl_companiesValid (ops : List Op) :
    ∀ s : ServerState, companiesValid s → companiesValid (ops.foldl step s) := by
  induction ops with
  | nil => intro s h; exact h
  | cons op rest ih => intro s h; exact ih _ (step_companiesValid h op)

theorem runOps_companiesValid (ops : List Op) : companiesValid (runOps ops) :=
  foldl_companiesValid ops initState (by intro p hp; simp [initState] at hp)

/-! The claims. -/

/-- Claim C1: for every registry state, `findAvailableAgent` performs the
two-pass selection of the specification — it returns a session of the
tenant with exactly the preferred extension and availability true if one
exists, otherwise the first session in insertion order of the registry in
that tenant with availability true, otherwise none.  `findAvailableSpec`
is the wording of the claim, stated with filter and head. -/
theorem findAvailableAgent_two_pass (registry : List (String × Connection))
    (company preferredExtension : String) :
    findAvailableAgent registry company preferredExtension =
      findAvailableSpec registry company preferredExtension := by
  unfold findAvailableAgent findAvailableSpec
  rw [find?_eq_filterHead, find?_eq_filterHead]
  cases (registry.filter (pass1 company preferredExtension)).head? with
  | some p => rfl
  | none =>
    cases (registry.filter (pass2 company)).head? with
    | some p => rfl
    | none => rfl

/-- Claim C2 counterexample: a call record in the terminal status
`completed` is NOT left unchanged by a subsequent status callback — the
handler overwrites status, duration and end time unconditionally. -/
theorem applyStatus_terminal_mutates_cex :
    isTerminal "completed" = true ∧
    mapGet (applyStatusCall
        [("CA1", { fromNumber := "+15550001111", company := "connectiv",
                   startTime := 0, status := "completed",
                   duration := some "10", endTime := some 5 })]
        "CA1" "in-progress" none 9) "CA1" =
      some { fromNumber := "+15550001111", company := "connectiv",
             startTime := 0, status := "in-progress",
             duration := none, endTime := some 9 } ∧
    ("in-progress" ≠ "completed" ∧ (none : Option String) ≠ some "10" ∧
     (some 9 : Option Nat) ≠ some 5) :=
  ⟨rfl, rfl, by decide, by decide, by decide⟩

/-- Claim C2 amended: the `/api/call-status` handler has no terminal-status
guard — on a record whose current status is terminal, a subsequent
`applyStatusCall` still overwrites the status, the duration and the end
time with the new values. -/
theorem applyStatus_terminal_overwrites
    (callStates : List (String × CallRecord)) (callSid status : String)
    (duration : Option String) (now : Nat) (r : CallRecord)
    (hr : mapGet callStates callSid = some r)
    (_ht : isTerminal r.status = true) :
    mapGet (applyStatusCall callStates callSid status duration now) callSid =
      some { r with status := status, duration := duration,
                    endTime := some now } := by
  unfold applyStatusCall
  rw [hr]
  exact mapGet_mapSet_self ..

/-- Witness for `applyStatus_terminal_overwrites` at a concrete record. -/
theorem applyStatus_terminal_overwrites_witness :
    mapGet (applyStatusCall
        [("CA1", { fromNumber := "+15550001111", company := "connectiv",
                   startTime := 0, status := "completed",
                   duration := some "10", endTime := some 5 })]
        "CA1" "no-answer" (some "0") 9) "CA1" =
      some { fromNumber := "+15550001111", company := "connectiv",
             startTime := 0, status := "no-answer",
             duration := some "0", endTime := some 9 } :=
  applyStatus_terminal_overwrites
    [("CA1", { fromNumber := "+15550001111", company := "connectiv",
               startTime := 0, status := "completed",
               duration := some "10", endTime := some 5 })]
    "CA1" "no-answer" (some "0") 9
    { fromNumber := "+15550001111", company := "connectiv",
      startTime := 0, status := "completed",
      duration := some "10", endTime := some 5 }
    rfl rfl

/-- Claim C6 counterexample: a repeated begin event for an existing CallSid
is not a no-op — the existing record (here already completed) is replaced
by a fresh `incoming` record with a new start time and origin. -/
theorem beginCall_not_noop_cex :
    mapGet ([("CA1", { fromNumber := "+15550001111", company := "connectiv",
                       startTime := 0, status := "completed",
                       duration := some "10", endTime := some 5 })] :
        List (String × CallRecord))
        "CA1" =
      some { fromNumber := "+15550001111", company := "connectiv",
             startTime := 0, status := "completed",
             duration := some "10", endTime := some 5 } ∧
    mapGet (beginCall
        [("CA1", { fromNumber := "+15550001111", company := "connectiv",
                   startTime := 0, status := "completed",
                   duration := some "10", endTime := some 5 })]
        "CA1" "+15550002222" "connectiv" 7) "CA1" =
      some { fromNumber := "+15550002222", company := "connectiv",
             startTime := 7, status := "incoming",
             duration := none, endTime := none } ∧
    "incoming" ≠ "completed" :=
  ⟨rfl, rfl, by decide⟩

/-- Claim C6 amended: `beginCall` always installs a record with status
`incoming` and start time now under the CallSid; when a record for the
CallSid already exists it is overwritten (last write wins), not
preserved. -/
theorem beginCall_installs_fresh_record
    (callStates : List (String × CallRecord))
    (callSid fromNumber company : String) (now : Nat) :
    mapGet (beginCall callStates callSid fromNumber company now) callSid =
      some { fromNumber := fromNumber, company := company, startTime := now,
             status := "incoming", duration := none, endTime := none } :=
  mapGet_mapSet_self ..

/-- Claim C9 counterexample: on a non-terminal record, a status callback
with a NON-terminal new status (`ringing`) still sets the end time and the
duration, contradicting the claim that they are set only for terminal new
statuses. -/
theorem applyStatus_nonterminal_sets_times_cex :
    isTerminal "ringing" = false ∧
    mapGet (applyStatusCall
        [("CA2", { fromNumber := "+15550001111", company := "connectiv",
                   startTime := 0, status := "incoming",
                   duration := none, endTime := none })]
        "CA2" "ringing" (some "0") 3) "CA2" =
      some { fromNumber := "+15550001111", company := "connectiv",
             startTime := 0, status := "ringing",
             duration := some "0", endTime := some 3 } ∧
    (some 3 : Option Nat) ≠ none :=
  ⟨rfl, rfl, by decide⟩

/-- Claim C9 amended: `applyStatusCall` on an existing record updates the
status and sets the end time and the duration unconditionally, whether or
not the new status is terminal. -/
theorem applyStatus_always_sets_times
    (callStates : List (String × CallRecord)) (callSid status : String)
    (duration : Option String) (now : Nat) (r : CallRecord)
    (hr : mapGet callStates callSid = some r) :
    mapGet (applyStatusCall callStates callSid status duration now) callSid =
      some { r with status := status, duration := duration,
                    endTime := some now } := by
  unfold applyStatusCall
  rw [hr]
  exact mapGet_mapSet_self ..

/-- Witness for `applyStatus_always_sets_times` at a concrete record. -/
theorem applyStatus_always_sets_times_witness :
    mapGet (applyStatusCall
        [("CA2", { fromNumber := "+15550001111", company := "connectiv",
                   startTime := 0, status := "incoming",
                   duration := none, endTime := none })]
        "CA2" "in-progress" (some "2") 4) "CA2" =
      some { fromNumber := "+15550001111", company := "connectiv",
             startTime := 0, status := "in-progress",
             duration := some "2", endTime := some 4 } :=
  applyStatus_always_sets_times
    [("CA2", { fromNumber := "+15550001111", company := "connectiv",
               startTime := 0, status := "incoming",
               duration := none, endTime := none })]
    "CA2" "in-progress" (some "2") 4
    { fromNumber := "+15550001111", company := "connectiv",
      startTime := 0, status := "incoming",
      duration := none, endTime := none }
    rfl

/-- Claim C3 counterexample: registration does NOT validate the extension
against the tenant extension table — registering identity `ext_999` under
`connectiv` succeeds and stores a session whose extension `999` is not a
key of the connectiv extension set, so no `UnknownExtension` failure
exists and the claimed invariant fails in a reachable state. -/
theorem register_unknown_extension_cex :
    registerSession companies0 [] "ext_999" "connectiv" 0 =
      Except.ok [("ext_999", { company := "connectiv", extension := "999",
                               connectedAt := 0, available := true })] ∧
    mapGet connectivConfig.extensions "999" = none :=
  ⟨rfl, rfl⟩

/-- Claim C3 amended: registration validates only that the company exists
(failing with the invalid-company error); the extension is derived from
the identity and is never checked, so the stored session may claim an
extension outside the tenant extension set. -/
theorem registerSession_validates_company_only
    (cfg : List (String × CompanyConfig)) (reg : List (String × Connection))
    (identity company : String) (now : Nat)
    (hid : identity ≠ "") (hco : company ≠ "") :
    (mapGet cfg company = none →
       registerSession cfg reg identity company now =
         Except.error TokenError.invalidCompany) ∧
    ((mapGet cfg company).isSome = true →
       registerSession cfg reg identity company now =
         Except.ok (mapSet reg identity
           { company := company,
             extension := jsReplaceFirst identity "ext_" "",
             connectedAt := now, available := true }) ∧
       mapGet (mapSet reg identity
           { company := company,
             extension := jsReplaceFirst identity "ext_" "",
             connectedAt := now, available := true }) identity =
         some { company := company,
                extension := jsReplaceFirst identity "ext_" "",
                connectedAt := now, available := true }) := by
  have h0 : ¬((identity == "" || company == "") = true) := by
    simp [hid, hco]
  constructor
  · intro hc
    unfold registerSession
    rw [if_neg h0]
    simp only [hc]
  · intro hc
    cases hsome : mapGet cfg company with
    | none => rw [hsome] at hc; simp at hc
    | some c =>
      constructor
      · unfold registerSession
        rw [if_neg h0]
        simp only [hsome]
      · exact mapGet_mapSet_self ..

/-- Witness for `registerSession_validates_company_only`: registering
`ext_101` under `connectiv` succeeds and the stored session claims
extension `101`. -/
theorem registerSession_validates_company_only_witness :
    registerSession companies0 [] "ext_101" "connectiv" 0 =
      Except.ok (mapSet [] "ext_101"
        { company := "connectiv",
          extension := jsReplaceFirst "ext_101" "ext_" "",
          connectedAt := 0, available := true }) ∧
    mapGet (mapSet ([] : List (String × Connection)) "ext_101"
        { company := "connectiv",
          extension := jsReplaceFirst "ext_101" "ext_" "",
          connectedAt := 0, available := true }) "ext_101" =
      some { company := "connectiv",
             extension := jsReplaceFirst "ext_101" "ext_" "",
             connectedAt := 0, available := true } :=
  (registerSession_validates_company_only companies0 [] "ext_101" "connectiv" 0
    (by decide) (by decide)).2 rfl

/-- Claim C5 counterexample: after registering `ext_101` under
`connectiv`/`101` and then setting availability of extension `101` to
false — with no intervening operations — the stored session still has its
session flag true and `findAvailableAgent` still selects it for preferred
extension `101`; the handler only toggles the configuration flag, which
`findAvailableAgent` never consults. -/
theorem setAvailability_not_consulted_cex :
    (runOps [Op.register "ext_101" "connectiv" 0,
             Op.setAvail "connectiv" "101" false]).activeConnections =
      [("ext_101", { company := "connectiv", extension := "101",
                     connectedAt := 0, available := true })] ∧
    Option.map (fun c => mapGet c.extensions "101")
        (mapGet (runOps [Op.register "ext_101" "connectiv" 0,
                         Op.setAvail "connectiv" "101" false]).companiesCfg
          "connectiv") =
      some (some { name := "Reception", available := false }) ∧
    findAvailableAgent
        (runOps [Op.register "ext_101" "connectiv" 0,
                 Op.setAvail "connectiv" "101" false]).activeConnections
        "connectiv" "101" =
      some "ext_101" :=
  ⟨rfl, rfl, rfl⟩

/-- Claim C5 amended: `setAvailability` fails with NotFound when no
tenant/extension match and otherwise sets the availability flag of the
CONFIGURATION entry; that flag is not the one `findAvailableAgent`
consults — the preferred-extension pass still selects any session whose
own session flag is true. -/
theorem setAvailability_sets_config_flag
    (cfg : List (String × CompanyConfig)) (company extension : String)
    (avail : Bool) :
    (mapGet cfg company = none →
       setAvailability cfg company extension avail =
         Except.error AvailabilityError.notFound) ∧
    (∀ c, mapGet cfg company = some c →
       mapGet c.extensions extension = none →
       setAvailability cfg company extension avail =
         Except.error AvailabilityError.notFound) ∧
    (∀ c e, mapGet cfg company = some c →
       mapGet c.extensions extension = some e →
       setAvailability cfg company extension avail =
         Except.ok (mapSet cfg company
           { c with extensions := (mapSet c.extensions extension
               { e with available := avail }) }) ∧
       mapGet (mapSet c.extensions extension { e with available := avail })
           extension =
         some { e with available := avail }) ∧
    (∀ (r : List (String × Connection)) (p : String × Connection),
       r.find? (pass1 company extension) = some p →
       findAvailableAgent r company extension = some p.1 ∧
       p.2.extension = extension ∧ p.2.available = true) := by
  refine ⟨?_, ?_, ?_, ?_⟩
  · intro hc
    simp only [setAvailability, hc]
  · intro c hc he
    simp only [setAvailability, hc, he]
  · intro c e hc he
    refine ⟨?_, mapGet_mapSet_self ..⟩
    simp only [setAvailability, hc, he]
  · intro r p hp
    refine ⟨?_, ?_⟩
    · unfold findAvailableAgent
      rw [hp]
    · have hpa := List.find?_some hp
      simp only [pass1, Bool.and_eq_true, beq_iff_eq] at hpa
      exact ⟨hpa.1.2, hpa.2⟩

/-- Witness for `setAvailability_sets_config_flag`: disabling
`connectiv`/`101` in the configuration succeeds, and the
preferred-extension pass still returns a session claiming `101` with its
session flag true. -/
theorem setAvailability_sets_config_flag_witness :
    (setAvailability companies0 "connectiv" "101" false =
       Except.ok (mapSet companies0 "connectiv"
         { connectivConfig with extensions :=
             (mapSet connectivConfig.extensions "101"
               { name := "Reception", available := false }) }) ∧
     mapGet (mapSet connectivConfig.extensions "101"
         { name := "Reception", available := false }) "101" =
       some { name := "Reception", available := false }) ∧
    (findAvailableAgent
         [("ext_101", { company := "connectiv", extension := "101",
                        connectedAt := 0, available := true })]
         "connectiv" "101" =
       some "ext_101" ∧
     ("101" : String) = "101" ∧ true = true) :=
  ⟨(setAvailability_sets_config_flag companies0 "connectiv" "101" false).2.2.1
      connectivConfig { name := "Reception", available := true } rfl rfl,
   (setAvailability_sets_config_flag companies0 "connectiv" "101" false).2.2.2
      [("ext_101", { company := "connectiv", extension := "101",
                     connectedAt := 0, available := true })]
      ("ext_101", { company := "connectiv", extension := "101",
                    connectedAt := 0, available := true })
      rfl⟩

/-- Claim C7: after a reap tick every session whose connection age
strictly exceeds the TTL of 4 hours is absent from the registry, every
session whose age is below the TTL is still present, and hence the reaper
never removes a session younger than the TTL — for any registry state,
reachable or not. -/
theorem reapTick_ttl (registry : List (String × Connection)) (now : Nat)
    (identity : String) (conn : Connection)
    (hm : (identity, conn) ∈ registry) :
    (now - conn.connectedAt > sessionTTL →
       (identity, conn) ∉ reapTick registry now) ∧
    (now - conn.connectedAt < sessionTTL →
       (identity, conn) ∈ reapTick registry now) := by
  constructor
  · intro hage hmem
    rw [reapTick, List.mem_filter] at hmem
    simp only [Bool.not_eq_true', decide_eq_false_iff_not] at hmem
    exact hmem.2 hage
  · intro hage
    rw [reapTick, List.mem_filter]
    refine ⟨hm, ?_⟩
    simp only [Bool.not_eq_true', decide_eq_false_iff_not]
    omega

/-- Witness for `reapTick_ttl`: a session aged just past the TTL is gone
after the tick, and the same session at age 5 ms survives. -/
theorem reapTick_ttl_witness :
    ("agent1", ({ company := "connectiv", extension := "101",
                  connectedAt := 0, available := true } : Connection)) ∉
      reapTick [("agent1", { company := "connectiv", extension := "101",
                             connectedAt := 0, available := true })]
        (sessionTTL + 1) ∧
    ("agent1", ({ company := "connectiv", extension := "101",
                  connectedAt := 0, available := true } : Connection)) ∈
      reapTick [("agent1", { company := "connectiv", extension := "101",
                             connectedAt := 0, available := true })] 5 :=
  ⟨(reapTick_ttl _ _ _ _ (by decide)).1 (by decide),
   (reapTick_ttl _ _ _ _ (by decide)).2 (by decide)⟩

/-- Claim C4: in the routed state the connectiv menu handler emits a
dial-to-agent instruction naming the agent found by the registry, with a
30 second ring timeout, and no recording instruction; when no agent is
available it emits the voicemail outcome (spoken prompt plus recording
instruction) and never a dial instruction.  In particular, with an empty
registry pressing 2 yields a recording instruction and no dial, and with
`ext_101` registered under `connectiv`/`101` pressing 1 yields a dial
instruction naming `ext_101`. -/
theorem connectivMenu_routed_outcomes :
    (∀ (r : List (String × Connection)) (d id : String),
       findAvailableAgent r "connectiv" (connectivRoute d).1 = some id →
       TwiML.dialClient 30 (some "/api/call-status") id ∈ connectivMenu r d ∧
       ∀ a m k, TwiML.record a m k ∉ connectivMenu r d) ∧
    (∀ (r : List (String × Connection)) (d : String),
       findAvailableAgent r "connectiv" (connectivRoute d).1 = none →
       TwiML.record "/api/voicemail" 60 (some "#") ∈ connectivMenu r d ∧
       ∀ t a id, TwiML.dialClient t a id ∉ connectivMenu r d) ∧
    (TwiML.record "/api/voicemail" 60 (some "#") ∈ connectivMenu [] "2" ∧
     ∀ t a id, TwiML.dialClient t a id ∉ connectivMenu [] "2") ∧
    (registerSession companies0 [] "ext_101" "connectiv" 0 =
       Except.ok [("ext_101", { company := "connectiv", extension := "101",
                                connectedAt := 0, available := true })] ∧
     TwiML.dialClient 30 (some "/api/call-status") "ext_101" ∈
       connectivMenu [("ext_101", { company := "connectiv",
                                    extension := "101", connectedAt := 0,
                                    available := true })] "1") := by
  have h2 : ∀ (r : List (String × Connection)) (d : String),
      findAvailableAgent r "connectiv" (connectivRoute d).1 = none →
      TwiML.record "/api/voicemail" 60 (some "#") ∈ connectivMenu r d ∧
      ∀ t a id, TwiML.dialClient t a id ∉ connectivMenu r d := by
    intro r d h
    constructor
    · simp [connectivMenu, h]
    · intro t a id hk
      simp [connectivMenu, h] at hk
  refine ⟨?_, h2, h2 [] "2" rfl, rfl, by decide⟩
  intro r d id h
  constructor
  · simp [connectivMenu, h]
  · intro a m k hk
    simp [connectivMenu, h] at hk

/-- Witness for `connectivMenu_routed_outcomes`: with `ext_101` registered
and digit 1 pressed, the dial instruction is emitted and no recording
instruction appears. -/
theorem connectivMenu_routed_outcomes_witness :
    TwiML.dialClient 30 (some "/api/call-status") "ext_101" ∈
      connectivMenu [("ext_101", { company := "connectiv",
                                   extension := "101", connectedAt := 0,
                                   available := true })] "1" ∧
    ∀ a m k, TwiML.record a m k ∉
      connectivMenu [("ext_101", { company := "connectiv",
                                   extension := "101", connectedAt := 0,
                                   available := true })] "1" :=
  connectivMenu_routed_outcomes.1
    [("ext_101", { company := "connectiv", extension := "101",
                   connectedAt := 0, available := true })]
    "1" "ext_101" rfl

/-- Claim C8: the digit-to-extension mapping is a total function — every
input string (so in particular each digit 0 through 9 and the empty
timeout input) yields exactly one extension that exists in the tenant
configuration, and every input other than 1, 2, 3, 4 yields the tenant
default extension (101 for connectiv, 201 for booksnpayroll). -/
theorem digitMap_total (d : String) :
    (mapGet connectivConfig.extensions (connectivRoute d).1).isSome = true ∧
    (mapGet booksnpayrollConfig.extensions
        (booksnpayrollRoute d).1).isSome = true ∧
    (d ≠ "1" → d ≠ "2" → d ≠ "3" → d ≠ "4" →
       (connectivRoute d).1 = "101" ∧ (booksnpayrollRoute d).1 = "201") := by
  refine ⟨?_, ?_, ?_⟩
  · unfold connectivRoute
    split_ifs <;> rfl
  · unfold booksnpayrollRoute
    split_ifs <;> rfl
  · intro h1 h2 h3 h4
    constructor
    · simp [connectivRoute, h1, h2, h3, h4]
    · simp [booksnpayrollRoute, h1, h2, h3, h4]

/-- Witness for `digitMap_total`: the unrecognized digit 9 maps to the
default extensions 101 and 201. -/
theorem digitMap_total_witness :
    (connectivRoute "9").1 = "101" ∧ (booksnpayrollRoute "9").1 = "201" :=
  (digitMap_total "9").2.2 (by decide) (by decide) (by decide) (by decide)

/-- Claim C10: outbound caller-id resolution is total in every reachable
state — for a registered identity it returns the public phone number of
the tenant of the session, for an unregistered identity the configured
default number, and it never fails to produce a caller id. -/
theorem getCallerId_total (ops : List Op) (identity : String) :
    (getCallerIdForIdentity (runOps ops).companiesCfg
        (runOps ops).activeConnections identity).isSome = true ∧
    (∀ conn c,
       mapGet (runOps ops).activeConnections identity = some conn →
       mapGet (runOps ops).companiesCfg conn.company = some c →
       getCallerIdForIdentity (runOps ops).companiesCfg
           (runOps ops).activeConnections identity = some c.phoneNumber) ∧
    (mapGet (runOps ops).activeConnections identity = none →
       getCallerIdForIdentity (runOps ops).companiesCfg
           (runOps ops).activeConnections identity =
         some "+18562307373") := by
  refine ⟨?_, ?_, ?_⟩
  · unfold getCallerIdForIdentity
    cases hc : mapGet (runOps ops).activeConnections identity with
    | none => rfl
    | some conn =>
      have hv : (mapGet (runOps ops).companiesCfg conn.company).isSome = true :=
        runOps_companiesValid ops (identity, conn) (mapGet_mem hc)
      rcases Option.isSome_iff_exists.mp hv with ⟨c, hcfg⟩
      show (Option.map (fun c => c.phoneNumber)
        (mapGet (runOps ops).companiesCfg conn.company)).isSome = true
      rw [hcfg]
      rfl
  · intro conn c hconn hcfg
    unfold getCallerIdForIdentity
    rw [hconn]
    show Option.map (fun c => c.phoneNumber)
      (mapGet (runOps ops).companiesCfg conn.company) = some c.phoneNumber
    rw [hcfg]
    rfl
  · intro h
    unfold getCallerIdForIdentity
    rw [h]

/-- Witness for `getCallerId_total`: at process start an unregistered
identity resolves to the configured default number. -/
theorem getCallerId_total_witness :
    getCallerIdForIdentity (runOps []).companiesCfg
        (runOps []).activeConnections "nobody" = some "+18562307373" :=
  (getCallerId_total [] "nobody").2.2 rfl

end DialerServer
